import Mathlib

/-!
Verification of the chylnx_hub chat-widget client
(`src/chylnx_hub/static/script.js`, second variant, lines 54-176).

The script is a DOM/event glue layer: a `sendMessage` function reading the
chat input, a socket `message` receive handler with own-message suppression,
a `payment_status` handler that unlocks the affordances after a fixed delay,
an admin lock/unlock button installer gated on a Jinja-rendered string, a
`chat_status` handler toggling the `disabled` attributes, and a system-notice
helper.  We embed the controller state (input value, chat view, disabled
flags, own id, outbound transport events, pay overlay, pending unlock timer)
and each handler as a pure state transformer, faithfully to the source.

The source keeps no explicit `locked` variable, no `hasSent` flag and no
winners panel; where a claim depends on those, the corresponding definition
is modelled from the spec and marked as such in its doc comment.
-/

set_option autoImplicit false

namespace ChylnxHub

/-- Whitespace characters stripped by JavaScript `String.prototype.trim`
(WhiteSpace and LineTerminator code points; the common ones). -/
def jsWhitespace (c : Char) : Bool :=
  c = ' ' || c = '\t' || c = '\n' || c = '\r' || c = '\x0b' || c = '\x0c' ||
  c = '\u00A0' || c = '\u2028' || c = '\u2029' || c = '\uFEFF'

/-- JavaScript `String.prototype.trim`: remove leading and trailing
whitespace (src line 80: `chatInput.value.trim()`). -/
def jsTrim (s : String) : String :=
  ⟨((s.data.dropWhile jsWhitespace).reverse.dropWhile jsWhitespace).reverse⟩

/-- JavaScript truthiness of a string: every string except `""` is truthy
(src line 133: `if (isAdmin)`). -/
def jsStringTruthy (s : String) : Bool :=
  decide (s ≠ "")

/-- CSS class of a chat-view entry: `"msg me"` for locally sent messages
(src line 85), `"msg other"` for received ones (src line 111),
`"system-msg"` for notices (src line 169). -/
inductive Sender where
  | me : Sender
  | other : Sender
  | system : Sender
deriving DecidableEq, Repr

/-- One `div` appended to `chatWindow`. -/
structure Message where
  sender : Sender
  text : String
deriving DecidableEq, Repr

/-- Events emitted on the socket by the client. -/
inductive OutEvent where
  | message (id : Option String) (text : String) : OutEvent
  | lock_chat : OutEvent
  | unlock_chat : OutEvent
deriving DecidableEq, Repr

/-- The controller state: the DOM pieces the script reads and writes, the
own socket id, and the list of events emitted to the transport.
`pendingUnlock` records a scheduled `setTimeout` callback from the
`payment_status` handler (src lines 121-125) that has not fired yet; the
callback is idempotent, so one flag suffices.  `hasSent`, `winnersVisible`
and `winners` are modelled from the spec (no such state exists in
`script.js`); no handler embedded from the source touches them. -/
structure State where
  inputValue : String
  view : List Message
  inputDisabled : Bool
  sendDisabled : Bool
  myId : Option String
  emitted : List OutEvent
  payOverlayHTML : String
  payOverlayHidden : Bool
  pendingUnlock : Bool
  hasSent : Bool
  winnersVisible : Bool
  winners : List String
deriving DecidableEq, Repr

/-- Modelled from the spec: the source keeps no `locked` variable; the
spec's `locked` flag of `ChatState` abstracts the disabled state of the
chat affordances, which the `chat_status` handler always sets in tandem. -/
def State.locked (s : State) : Bool :=
  s.inputDisabled

/-- The page before any event: empty input, empty view, no id, nothing
emitted.  The initial disabled state of the affordances comes from the
HTML template (not in src), so it is a parameter; both affordances start
in the same state. -/
def initState (d : Bool) : State :=
  { inputValue := ""
    view := []
    inputDisabled := d
    sendDisabled := d
    myId := none
    emitted := []
    payOverlayHTML := ""
    payOverlayHidden := false
    pendingUnlock := false
    hasSent := false
    winnersVisible := false
    winners := [] }

/-- `socket.on("connect")` (src lines 65-67): record the socket id. -/
def connectHandler (sid : String) (s : State) : State :=
  { s with myId := some sid }

/-- `addSystemMessage` (src lines 167-176): append a system-styled `div`
to the chat window. -/
def addSystemMessage (text : String) (s : State) : State :=
  { s with view := s.view ++ [⟨Sender.system, text⟩] }

/-- `sendMessage` (src lines 79-93): trim the input; if empty, return
without any change; otherwise append the trimmed message to the view,
emit `message {id, text}` to the server, and clear the input.  Note the
source performs no lock check here. -/
def sendMessage (s : State) : State :=
  let msg := jsTrim s.inputValue
  if msg = "" then s
  else
    { s with
        view := s.view ++ [⟨Sender.me, msg⟩]
        emitted := s.emitted ++ [OutEvent.message s.myId msg]
        inputValue := "" }

/-- `socket.on("message")` (src lines 107-115): if `data.id === myId`,
return without appending; otherwise append the text as an `other`
message. -/
def messageHandler (dataId : Option String) (dataText : String) (s : State) : State :=
  if dataId = s.myId then s
  else { s with view := s.view ++ [⟨Sender.other, dataText⟩] }

/-- `socket.on("payment_status")` (src lines 118-127): only when
`data.status === "success"`, set the overlay text and schedule the
delayed unlock; otherwise do nothing. -/
def paymentStatusHandler (status : String) (s : State) : State :=
  if status = "success" then
    { s with payOverlayHTML := "🎉 Chat Unlocked!", pendingUnlock := true }
  else s

/-- The `setTimeout` callback scheduled by the `payment_status` handler
(src lines 121-125): hide the overlay and enable input and send button.
Fires only when a callback is pending. -/
def paymentTimeoutFires (s : State) : State :=
  if s.pendingUnlock then
    { s with
        payOverlayHidden := true
        inputDisabled := false
        sendDisabled := false
        pendingUnlock := false }
  else s

/-- `socket.on("chat_status")` (src lines 154-164): on `locked` append the
lock notice and disable both affordances, otherwise append the unlock
notice and enable both. -/
def chatStatusHandler (locked : Bool) (s : State) : State :=
  if locked then
    { addSystemMessage "🚫 Chat locked by admin" s with
        inputDisabled := true, sendDisabled := true }
  else
    { addSystemMessage "✅ Chat unlocked" s with
        inputDisabled := false, sendDisabled := false }

/-- The `isAdmin` constant (src line 131): the Jinja template expression
renders to the string "true" when the server-side session admin flag
`session.get(is_admin)` is set and to the string "false" otherwise. -/
def isAdmin (sessionAdmin : Bool) : String :=
  if sessionAdmin then "true" else "false"

/-- A button installed in the header together with the socket event its
click handler emits (src lines 134-150). -/
structure AdminBtn where
  label : String
  onClickEmits : OutEvent
deriving DecidableEq, Repr

/-- The admin-button installation block (src lines 133-151): when the
`isAdmin` string is truthy, create the lock and unlock buttons and
register click handlers emitting `lock_chat` / `unlock_chat`; otherwise
install nothing. -/
def adminSetup (sessionAdmin : Bool) : List AdminBtn :=
  if jsStringTruthy (isAdmin sessionAdmin) then
    [⟨"🔒 Lock Chat", OutEvent.lock_chat⟩, ⟨"🔓 Unlock Chat", OutEvent.unlock_chat⟩]
  else []

/-- p is a leading segment of cs (helper for the trigger-keyword test). -/
def leadsWith (p cs : List Char) : Bool :=
  match p, cs with
  | [], _ => true
  | _ :: _, [] => false
  | a :: p, c :: cs => a = c && leadsWith p cs

/-- p occurs as a contiguous run somewhere in cs. -/
def occursIn (p cs : List Char) : Bool :=
  match cs with
  | [] => p.isEmpty
  | _ :: rest => leadsWith p cs || occursIn p rest

/-- Modelled from the spec: the winners panel is absent from
`script.js`; per the glossary it is "a UI list populated from messages
containing a trigger keyword", and the §8 example uses the keyword
`"win"` (input "hello win" is appended to the winners list). -/
def containsTrigger (msg : String) : Bool :=
  occursIn "win".data msg.data

/-- Modelled from the spec: the `hasSent` flag and winners list of
`ChatState` are absent from `script.js`.  `submitLocalMessage` performs
the source `sendMessage` effects and, per spec §4.1 and §8, additionally
marks `hasSent` and appends trigger-keyword messages to the winners
list.  The view/input/transport effects are exactly those of the source
`sendMessage` (which performs no lock check). -/
def submitLocalMessage (s : State) : State :=
  let msg := jsTrim s.inputValue
  if msg = "" then s
  else
    { sendMessage s with
        hasSent := true
        winners := if containsTrigger msg then s.winners ++ [msg] else s.winners }

/-- Modelled from the spec: `toggleWinnersPanel` is absent from
`script.js`; per spec §4.1 it is a "no-op until `hasSent==true`;
otherwise flips panel visibility and force-locks the chat as a side
effect". -/
def toggleWinnersPanel (s : State) : State :=
  if s.hasSent then
    { s with
        winnersVisible := !s.winnersVisible
        inputDisabled := true
        sendDisabled := true }
  else s

/-- One event processed by the page: a user action (typing, submitting,
clicking an admin button) or an inbound socket event or timer callback.
Each constructor applies the corresponding handler embedded above. -/
inductive Step : State → State → Prop where
  | connect (s : State) (sid : String) : Step s (connectHandler sid s)
  | typeInput (s : State) (t : String) : Step s { s with inputValue := t }
  | send (s : State) : Step s (sendMessage s)
  | submit (s : State) : Step s (submitLocalMessage s)
  | recv (s : State) (dataId : Option String) (dataText : String) :
      Step s (messageHandler dataId dataText s)
  | pay (s : State) (status : String) : Step s (paymentStatusHandler status s)
  | payTimeout (s : State) : Step s (paymentTimeoutFires s)
  | chatStatus (s : State) (locked : Bool) : Step s (chatStatusHandler locked s)
  | toggle (s : State) : Step s (toggleWinnersPanel s)
  | lockClick (s : State) : Step s { s with emitted := s.emitted ++ [OutEvent.lock_chat] }
  | unlockClick (s : State) : Step s { s with emitted := s.emitted ++ [OutEvent.unlock_chat] }

/-- States reachable from the initial page state by any sequence of
events. -/
inductive Reachable (d : Bool) : State → Prop where
  | refl : Reachable d (initState d)
  | step {s t : State} : Reachable d s → Step s t → Reachable d t

/-- Every handler moves the two affordance disabled flags together. -/
theorem step_preserves_disabled_agreement {s t : State} (st : Step s t)
    (h : s.inputDisabled = s.sendDisabled) : t.inputDisabled = t.sendDisabled := by
  cases st with
  | connect sid => exact h
  | typeInput t => exact h
  | send =>
      unfold sendMessage
      by_cases hm : jsTrim s.inputValue = "" <;> simp_all
  | submit =>
      unfold submitLocalMessage sendMessage
      by_cases hm : jsTrim s.inputValue = "" <;> simp_all
  | recv dataId dataText =>
      unfold messageHandler
      by_cases hm : dataId = s.myId <;> simp_all
  | pay status =>
      unfold paymentStatusHandler
      by_cases hm : status = "success" <;> simp_all
  | payTimeout =>
      unfold paymentTimeoutFires
      cases hp : s.pendingUnlock <;> simp_all
  | chatStatus locked =>
      unfold chatStatusHandler
      cases locked <;> simp [addSystemMessage]
  | toggle =>
      unfold toggleWinnersPanel
      cases hp : s.hasSent <;> simp_all
  | lockClick => exact h
  | unlockClick => exact h

/-- In every reachable state the two affordance disabled flags agree. -/
theorem reachable_disabled_agreement {d : Bool} {s : State} (h : Reachable d s) :
    s.inputDisabled = s.sendDisabled := by
  induction h with
  | refl => rfl
  | step _ st ih => exact step_preserves_disabled_agreement st ih

/-- A string all of whose characters are JS whitespace trims to empty. -/
theorem jsTrim_eq_empty_of_all_ws (s : String)
    (h : ∀ c ∈ s.data, jsWhitespace c = true) : jsTrim s = "" := by
  unfold jsTrim
  have h1 : s.data.dropWhile jsWhitespace = [] :=
    List.dropWhile_eq_nil_iff.mpr h
  rw [h1]
  rfl

/-- C1: at every reachable state of the controller, the chat input and the
send button are enabled (non-disabled) if and only if the locked flag is
false; no event handler can leave the affordances enabled while locked or
disabled while unlocked. -/
theorem C1_affordances_enabled_iff_unlocked (d : Bool) (s : State)
    (h : Reachable d s) :
    (s.inputDisabled = false ∧ s.sendDisabled = false) ↔ s.locked = false := by
  have he := reachable_disabled_agreement h
  unfold State.locked
  rw [← he]
  simp

/-- Witness for C1 at the state reached by one chat_status lock event. -/
theorem C1_affordances_enabled_iff_unlocked_witness :
    ((chatStatusHandler true (initState false)).inputDisabled = false ∧
      (chatStatusHandler true (initState false)).sendDisabled = false) ↔
      (chatStatusHandler true (initState false)).locked = false :=
  C1_affordances_enabled_iff_unlocked false _
    (Reachable.step Reachable.refl (Step.chatStatus (initState false) true))

/-- A concrete locked state: the page after typing "hello" and then
receiving a chat_status event with locked true (and no later unlock). -/
def lockedHello : State :=
  chatStatusHandler true { initState false with inputValue := "hello" }

/-- C2 counterexample: in a locked state with pending input "hello", the
source `sendMessage` is NOT a no-op — it appends to the view, emits to the
transport and clears the input, because the source performs no lock check
inside `sendMessage`. -/
theorem C2_counterexample_sendMessage_ignores_lock :
    lockedHello.locked = true ∧
    (sendMessage lockedHello).view ≠ lockedHello.view ∧
    (sendMessage lockedHello).emitted ≠ lockedHello.emitted ∧
    (sendMessage lockedHello).inputValue ≠ lockedHello.inputValue := by
  refine ⟨by decide, by decide, by decide, by decide⟩

/-- C2 (amended): a chat_status lock event disables both affordances, but
`sendMessage` itself performs no lock check: invoked in the locked state
with input that does not trim to empty, it still appends the trimmed
message to the view, forwards message {id, text} to the transport, and
clears the input.  The lock is enforced only through the disabled
attributes of the affordances, never inside `sendMessage`. -/
theorem C2_amended_sendMessage_has_no_lock_check (s : State)
    (h : jsTrim s.inputValue ≠ "") :
    (chatStatusHandler true s).locked = true ∧
    (sendMessage (chatStatusHandler true s)).view
      = (chatStatusHandler true s).view ++ [⟨Sender.me, jsTrim s.inputValue⟩] ∧
    (sendMessage (chatStatusHandler true s)).emitted
      = s.emitted ++ [OutEvent.message s.myId (jsTrim s.inputValue)] ∧
    (sendMessage (chatStatusHandler true s)).inputValue = "" := by
  simp [chatStatusHandler, addSystemMessage, sendMessage, State.locked, h]

/-- Witness for the amended C2 at the concrete input "hello". -/
theorem C2_amended_sendMessage_has_no_lock_check_witness :
    lockedHello.locked = true ∧
    (sendMessage lockedHello).view
      = lockedHello.view ++ [⟨Sender.me, jsTrim "hello"⟩] ∧
    (sendMessage lockedHello).emitted
      = [] ++ [OutEvent.message none (jsTrim "hello")] ∧
    (sendMessage lockedHello).inputValue = "" := by
  exact C2_amended_sendMessage_has_no_lock_check
    { initState false with inputValue := "hello" } (by decide)

/-- C3: with the chat not locked and input that does not trim to empty,
the submit operation appends one local message, clears the input, marks
hasSent, and forwards exactly one message {id, text} to the transport
(the hasSent/winners bookkeeping of `submitLocalMessage` is modelled from
the spec; the view/input/transport effects are those of the source
`sendMessage`). -/
theorem C3_submit_appends_clears_marks_and_forwards (s : State)
    (_hlock : s.locked = false) (h : jsTrim s.inputValue ≠ "") :
    (submitLocalMessage s).view = s.view ++ [⟨Sender.me, jsTrim s.inputValue⟩] ∧
    (submitLocalMessage s).inputValue = "" ∧
    (submitLocalMessage s).hasSent = true ∧
    (submitLocalMessage s).emitted
      = s.emitted ++ [OutEvent.message s.myId (jsTrim s.inputValue)] := by
  simp [submitLocalMessage, sendMessage, h]

/-- A fresh unlocked page with "hi" typed into the input. -/
def freshHi : State := { initState false with inputValue := "hi" }

/-- Witness for C3 at the concrete input "hi". -/
theorem C3_submit_appends_clears_marks_and_forwards_witness :
    freshHi.locked = false ∧ jsTrim freshHi.inputValue ≠ "" ∧
    ((submitLocalMessage freshHi).view
        = freshHi.view ++ [⟨Sender.me, jsTrim freshHi.inputValue⟩] ∧
      (submitLocalMessage freshHi).inputValue = "" ∧
      (submitLocalMessage freshHi).hasSent = true ∧
      (submitLocalMessage freshHi).emitted
        = freshHi.emitted ++ [OutEvent.message freshHi.myId (jsTrim freshHi.inputValue)]) :=
  ⟨by decide, by decide,
    C3_submit_appends_clears_marks_and_forwards freshHi (by decide) (by decide)⟩

/-- C4: the receive handler appends nothing when the inbound id equals the
local id, and otherwise appends exactly one message with the event text
(every other state component unchanged). -/
theorem C4_receive_suppresses_own_messages (dataId : Option String)
    (text : String) (s : State) :
    (dataId = s.myId → messageHandler dataId text s = s) ∧
    (dataId ≠ s.myId →
      (messageHandler dataId text s).view = s.view ++ [⟨Sender.other, text⟩] ∧
      { messageHandler dataId text s with view := s.view } = s) := by
  constructor
  · intro h
    simp [messageHandler, h]
  · intro h
    simp [messageHandler, h]

/-- Witness for C4: own message suppressed, foreign message appended. -/
theorem C4_receive_suppresses_own_messages_witness :
    messageHandler none "hi" (initState false) = initState false ∧
    (messageHandler (some "x") "hi" (initState false)).view
      = (initState false).view ++ [⟨Sender.other, "hi"⟩] :=
  ⟨(C4_receive_suppresses_own_messages none "hi" (initState false)).1 (by decide),
    ((C4_receive_suppresses_own_messages (some "x") "hi" (initState false)).2
      (by decide)).1⟩

/-- C5: on input that is empty or all whitespace, `sendMessage` appends
nothing to the view and forwards nothing to the transport (it is a
complete no-op). -/
theorem C5_whitespace_input_is_silently_ignored (s : State)
    (h : ∀ c ∈ s.inputValue.data, jsWhitespace c = true) :
    (sendMessage s).view = s.view ∧ (sendMessage s).emitted = s.emitted ∧
    sendMessage s = s := by
  have hs : sendMessage s = s := by
    unfold sendMessage
    simp [jsTrim_eq_empty_of_all_ws s.inputValue h]
  exact ⟨by rw [hs], by rw [hs], hs⟩

/-- Witness for C5 at the whitespace input consisting of spaces and a tab. -/
theorem C5_whitespace_input_is_silently_ignored_witness :
    (∀ c ∈ (String.data "  \t "), jsWhitespace c = true) ∧
    ((sendMessage { initState false with inputValue := "  \t " }).view
        = ({ initState false with inputValue := "  \t " } : State).view ∧
      (sendMessage { initState false with inputValue := "  \t " }).emitted
        = ({ initState false with inputValue := "  \t " } : State).emitted ∧
      sendMessage { initState false with inputValue := "  \t " }
        = { initState false with inputValue := "  \t " }) :=
  ⟨by decide,
    C5_whitespace_input_is_silently_ignored
      { initState false with inputValue := "  \t " } (by decide)⟩

/-- C6: a chat_status event with locked flag b sets the locked abstraction
and both disabled attributes to b and appends exactly one system notice
describing the new state. -/
theorem C6_chat_status_updates_lock_and_notifies (b : Bool) (s : State) :
    (chatStatusHandler b s).locked = b ∧
    (chatStatusHandler b s).inputDisabled = b ∧
    (chatStatusHandler b s).sendDisabled = b ∧
    (chatStatusHandler b s).view = s.view ++
      [⟨Sender.system, if b then "🚫 Chat locked by admin" else "✅ Chat unlocked"⟩] := by
  cases b <;> simp [chatStatusHandler, addSystemMessage, State.locked]

/-- C7: toggleWinnersPanel is a no-op before any local send, and after a
send it flips the winners panel visibility and force-locks the chat. -/
theorem C7_toggleWinnersPanel_gated_on_hasSent (s : State) :
    (s.hasSent = false → toggleWinnersPanel s = s) ∧
    (s.hasSent = true →
      (toggleWinnersPanel s).winnersVisible = !s.winnersVisible ∧
      (toggleWinnersPanel s).locked = true) := by
  constructor <;> intro h <;> simp [toggleWinnersPanel, h, State.locked]

/-- Witness for C7 on a fresh page and on a page with hasSent set. -/
theorem C7_toggleWinnersPanel_gated_on_hasSent_witness :
    toggleWinnersPanel (initState false) = initState false ∧
    (toggleWinnersPanel { initState false with hasSent := true }).winnersVisible = true ∧
    (toggleWinnersPanel { initState false with hasSent := true }).locked = true :=
  ⟨(C7_toggleWinnersPanel_gated_on_hasSent (initState false)).1 rfl,
    ((C7_toggleWinnersPanel_gated_on_hasSent
      { initState false with hasSent := true }).2 rfl).1,
    ((C7_toggleWinnersPanel_gated_on_hasSent
      { initState false with hasSent := true }).2 rfl).2⟩

/-- C8: submitting "hello win" on an unlocked fresh page appends the
message to the chat view and an entry to the winners list, while
submitting "" changes nothing at all. -/
theorem C8_hello_win_example :
    (submitLocalMessage { initState false with inputValue := "hello win" }).view
      = [⟨Sender.me, "hello win"⟩] ∧
    (submitLocalMessage { initState false with inputValue := "hello win" }).winners
      = ["hello win"] ∧
    submitLocalMessage { initState false with inputValue := "" }
      = { initState false with inputValue := "" } := by
  refine ⟨by decide, by decide, by decide⟩

/-- C9: the admin-button installation does not depend on the server-side
session admin flag: the rendered isAdmin string is non-empty (hence
truthy) for both flag values, so every run installs the same lock/unlock
buttons whose click handlers emit lock_chat and unlock_chat. -/
theorem C9_admin_buttons_installed_for_everyone (a b : Bool) :
    isAdmin a ≠ "" ∧
    jsStringTruthy (isAdmin a) = true ∧
    adminSetup a = adminSetup b ∧
    adminSetup a = [⟨"🔒 Lock Chat", OutEvent.lock_chat⟩,
      ⟨"🔓 Unlock Chat", OutEvent.unlock_chat⟩] := by
  cases a <;> cases b <;> exact ⟨by decide, by decide, by decide, by decide⟩

/-- C10: a payment_status event whose status is not exactly "success"
changes nothing at all; the success path sets the overlay and, when the
scheduled timeout fires, hides the overlay and enables both affordances. -/
theorem C10_payment_status_non_success_is_noop (status : String) (s : State)
    (h : status ≠ "success") :
    paymentStatusHandler status s = s ∧
    (paymentTimeoutFires (paymentStatusHandler "success" s)).payOverlayHidden = true ∧
    (paymentTimeoutFires (paymentStatusHandler "success" s)).inputDisabled = false ∧
    (paymentTimeoutFires (paymentStatusHandler "success" s)).sendDisabled = false := by
  simp [paymentStatusHandler, paymentTimeoutFires, h]

/-- Witness for C10 at the concrete failing status "failed". -/
theorem C10_payment_status_non_success_is_noop_witness :
    paymentStatusHandler "failed" (initState true) = initState true ∧
    (paymentTimeoutFires (paymentStatusHandler "success" (initState true))).payOverlayHidden = true ∧
    (paymentTimeoutFires (paymentStatusHandler "success" (initState true))).inputDisabled = false ∧
    (paymentTimeoutFires (paymentStatusHandler "success" (initState true))).sendDisabled = false :=
  C10_payment_status_non_success_is_noop "failed" (initState true) (by decide)

end ChylnxHub
